import Mathlib

/-!
# PlantConnect — verification of the sensor-to-signal pipeline

Shallow embedding of the algorithmic core of the PlantConnect repository:
the auto-calibration / deviation tracker, the touch-event debouncer, the
bio-synth audio engine's parameter mapping, the conversational interaction
controller's exclusion logic, the bounded analysis windows, and the
plant-health simulator's touch-event counter.

JavaScript numbers are modelled as exact rationals (`ℚ`); the integer
values produced by `Math.floor` / `Math.round` are modelled as `ℤ`.
Stateful effects are modelled as explicit state-passing functions.
-/

namespace PlantConnect

/-! ## Calibration & Deviation Tracker

Embeds the Auto-Calibration Logic of the DeviceMonitor sync effect:

    if (currentBaseline === 0 && currentRaw > 0) {
       hardwareBufferRef.current.baseline = currentRaw;
    } else if (currentRaw > 0) {
       const diff = Math.abs(currentRaw - currentBaseline);
       if (diff < 10) {
           hardwareBufferRef.current.baseline = currentBaseline * 0.99 + currentRaw * 0.01;
       }
    }
    const deviation = Math.abs(currentRaw - hardwareBufferRef.current.baseline);
    hardwareBufferRef.current.value = Math.floor(deviation);
-/

/-- One calibration step: returns the new baseline given the current raw
reading and the stored baseline. -/
def calibStep (raw baseline : ℚ) : ℚ :=
  if baseline = 0 ∧ 0 < raw then raw
  else if 0 < raw ∧ |raw - baseline| < 10 then
    baseline * (99/100) + raw * (1/100)
  else baseline

/-- One full sampling tick of the calibration tracker: the new baseline and
the published deviation value `Math.floor(Math.abs(raw - newBaseline))`. -/
def calibTick (raw baseline : ℚ) : ℚ × ℤ :=
  let b := calibStep raw baseline
  (b, ⌊|raw - b|⌋)

/-- C1: on every sampling tick, if the stored baseline is 0 and the raw
reading is positive the new baseline is the raw reading; otherwise if the
raw reading is positive and within 10 of the baseline, the new baseline is
`baseline*0.99 + raw*0.01`; otherwise the baseline is unchanged; and the
published value is `floor |raw - newBaseline|` in every case. -/
theorem calib_step_cases (r b : ℚ) :
    (b = 0 → 0 < r → calibStep r b = r) ∧
    (¬(b = 0 ∧ 0 < r) → 0 < r → |r - b| < 10 →
      calibStep r b = b * (99/100) + r * (1/100)) ∧
    (¬(b = 0 ∧ 0 < r) → ¬(0 < r ∧ |r - b| < 10) → calibStep r b = b) ∧
    (calibTick r b).2 = ⌊|r - calibStep r b|⌋ := by
  refine ⟨fun hb hr => ?_, fun h1 hr hd => ?_, fun h1 h2 => ?_, rfl⟩
  · simp [calibStep, hb, hr]
  · rw [calibStep, if_neg h1, if_pos ⟨hr, hd⟩]
  · rw [calibStep, if_neg h1, if_neg h2]

/-- Concrete instances of `calib_step_cases`, one per branch. -/
theorem calib_step_cases_witness :
    calibStep 50 0 = 50 ∧
    calibStep 52 50 = 50 * (99/100) + 52 * (1/100) ∧
    calibStep 70 45 = 45 ∧
    (calibTick 70 45).2 = ⌊|(70 : ℚ) - calibStep 70 45|⌋ := by
  refine ⟨(calib_step_cases 50 0).1 rfl (by norm_num),
    (calib_step_cases 52 50).2.1 (by norm_num) (by norm_num) (by norm_num),
    (calib_step_cases 70 45).2.2.1 (by norm_num) (by norm_num),
    (calib_step_cases 70 45).2.2.2⟩

/-- Under the adaptation gate (baseline zero, or deviation below 10) and a
positive raw reading, one calibration step shrinks the distance from the
raw reading by a factor of at most 99/100 and leaves it below 10. -/
lemma calibStep_contracts (R b : ℚ) (hR : 0 < R)
    (h : b = 0 ∨ |R - b| < 10) :
    |R - calibStep R b| ≤ (99/100) * |R - b| ∧ |R - calibStep R b| < 10 := by
  rcases h with hb | hd
  · subst hb
    rw [calibStep, if_pos ⟨rfl, hR⟩]
    constructor
    · rw [sub_self, abs_zero, sub_zero]
      positivity
    · simp
  · by_cases hb : b = 0 ∧ 0 < R
    · rw [calibStep, if_pos hb]
      constructor
      · rw [sub_self, abs_zero]; positivity
      · simp
    · rw [calibStep, if_neg hb, if_pos ⟨hR, hd⟩]
      have key : R - (b * (99/100) + R * (1/100)) = (99/100) * (R - b) := by ring
      rw [key, abs_mul, abs_of_pos (by norm_num : (0:ℚ) < 99/100)]
      exact ⟨le_refl _, by nlinarith [abs_nonneg (R - b)]⟩

/-- C2: whenever the deviation is at least 10 (and the baseline is nonzero,
so the first-sample initialization does not apply), the calibration step
leaves the baseline unchanged; consequently with raw held at 70 and
baseline 45 the baseline stays 45 on every tick and the published value
stays 25. -/
theorem calib_freeze_on_large_deviation (r b : ℚ) (hb : b ≠ 0)
    (h : 10 ≤ |r - b|) :
    calibStep r b = b ∧
    ∀ n : ℕ, (calibStep 70)^[n] 45 = 45 ∧
      (calibTick 70 ((calibStep 70)^[n] 45)).2 = 25 := by
  have freeze : ∀ r' b' : ℚ, b' ≠ 0 → 10 ≤ |r' - b'| → calibStep r' b' = b' := by
    intro r' b' hb' h'
    rw [calibStep, if_neg (by rintro ⟨h0, _⟩; exact hb' h0),
      if_neg (by rintro ⟨_, hlt⟩; linarith)]
  have h45 : ∀ n : ℕ, (calibStep 70)^[n] 45 = 45 := by
    intro n
    induction n with
    | zero => rfl
    | succ k ih =>
        rw [Function.iterate_succ_apply', ih]
        exact freeze 70 45 (by norm_num) (by rw [show |(70:ℚ) - 45| = 25 by norm_num]; norm_num)
  refine ⟨freeze r b hb h, fun n => ⟨h45 n, ?_⟩⟩
  rw [h45 n, calibTick]
  have : calibStep 70 45 = 45 :=
    freeze 70 45 (by norm_num) (by rw [show |(70:ℚ) - 45| = 25 by norm_num]; norm_num)
  simp only [this]
  norm_num [Int.floor_eq_iff]

/-- Concrete instance of `calib_freeze_on_large_deviation` at raw 70,
baseline 45, tick 5. -/
theorem calib_freeze_witness :
    calibStep 70 45 = 45 ∧ (calibStep 70)^[5] 45 = 45 ∧
      (calibTick 70 ((calibStep 70)^[5] 45)).2 = 25 := by
  have h := calib_freeze_on_large_deviation 70 45 (by norm_num) (by norm_num)
  exact ⟨h.1, (h.2 5).1, (h.2 5).2⟩

/-- C3: starting from any baseline satisfying the adaptation gate
(baseline 0, or within 10 of the constant raw value `R > 0`), after more
than 500 consecutive calibration steps with raw held at `R` the baseline is
within 1 unit of `R`. -/
theorem baseline_convergence (R b : ℚ) (n : ℕ) (hR : 0 < R)
    (hgate : b = 0 ∨ |R - b| < 10) (hn : 500 < n) :
    |R - (calibStep R)^[n] b| ≤ 1 := by
  -- the gate stays satisfied at every iterate
  have inv : ∀ k : ℕ, (calibStep R)^[k] b = 0 ∨ |R - (calibStep R)^[k] b| < 10 := by
    intro k
    induction k with
    | zero => exact hgate
    | succ m ih =>
        rw [Function.iterate_succ_apply']
        exact Or.inr (calibStep_contracts R _ hR ih).2
  -- after one step the distance is below 10, and it contracts by 99/100 each step
  have d1 : |R - (calibStep R)^[1] b| < 10 :=
    (calibStep_contracts R b hR hgate).2
  have decay : ∀ k : ℕ,
      |R - (calibStep R)^[k + 1] b| ≤ (99/100) ^ k * |R - (calibStep R)^[1] b| := by
    intro k
    induction k with
    | zero => simp
    | succ m ih =>
        have step := (calibStep_contracts R ((calibStep R)^[m + 1] b) hR (inv (m + 1))).1
        rw [show m + 1 + 1 = (m + 1) + 1 by rfl, Function.iterate_succ_apply']
        calc |R - calibStep R ((calibStep R)^[m + 1] b)|
            ≤ (99/100) * |R - (calibStep R)^[m + 1] b| := step
          _ ≤ (99/100) * ((99/100) ^ m * |R - (calibStep R)^[1] b|) := by
              have : (0:ℚ) ≤ 99/100 := by norm_num
              exact mul_le_mul_of_nonneg_left ih this
          _ = (99/100) ^ (m + 1) * |R - (calibStep R)^[1] b| := by ring
  obtain ⟨m, rfl⟩ : ∃ m, n = m + 1 := ⟨n - 1, by omega⟩
  have hbound : |R - (calibStep R)^[m + 1] b| ≤ (99/100) ^ m * 10 := by
    calc |R - (calibStep R)^[m + 1] b|
        ≤ (99/100) ^ m * |R - (calibStep R)^[1] b| := decay m
      _ ≤ (99/100) ^ m * 10 := by
          exact mul_le_mul_of_nonneg_left d1.le (by positivity)
  have hmono : ((99:ℚ)/100) ^ m ≤ (99/100) ^ 500 :=
    pow_le_pow_of_le_one (by norm_num) (by norm_num) (by omega)
  have hnum : ((99:ℚ)/100) ^ 500 * 10 ≤ 1 := by
    rw [div_pow, div_mul_eq_mul_div, div_le_one (by positivity)]
    norm_num
  calc |R - (calibStep R)^[m + 1] b|
      ≤ (99/100) ^ m * 10 := hbound
    _ ≤ (99/100) ^ 500 * 10 := by linarith
    _ ≤ 1 := hnum

/-- Concrete instance of `baseline_convergence`: raw held at 50 starting
from baseline 45, 501 steps. -/
theorem baseline_convergence_witness :
    |(50:ℚ) - (calibStep 50)^[501] 45| ≤ 1 :=
  baseline_convergence 50 45 501 (by norm_num)
    (Or.inr (by norm_num)) (by norm_num)

/-! ## Touch-Event Debouncer

Embeds the DeviceMonitor trigger-interactions effect:

    const touchThreshold = 15;
    const isTouch = valueRef.current > touchThreshold;
    if (isTouch && !isTouchingRef.current) {
        handleTouchStart();
    } else if (!isTouch && isTouchingRef.current) {
        handleTouchEnd();
    }

where `handleTouchStart` sets `isTouchingRef.current = true` and
`handleTouchEnd` sets it back to `false`.
-/

/-- Discrete edge events produced by the debouncer. -/
inductive TouchEvent where
  | start
  | stop
deriving DecidableEq, Repr

/-- The fixed debounce threshold of the trigger-interactions effect. -/
def touchThreshold : ℤ := 15

/-- One debouncer tick: given the touch latch `isTouching` and the current
published deviation `value`, returns the new latch and the fired edge event
(if any). -/
def debounceStep (isTouching : Bool) (value : ℤ) : Bool × Option TouchEvent :=
  if touchThreshold < value ∧ isTouching = false then
    (true, some TouchEvent.start)
  else if ¬touchThreshold < value ∧ isTouching = true then
    (false, some TouchEvent.stop)
  else (isTouching, none)

/-- Runs the debouncer over a list of deviation values, collecting the
per-tick fired events. -/
def debounceRun (isTouching : Bool) : List ℤ → Bool × List (Option TouchEvent)
  | [] => (isTouching, [])
  | v :: vs =>
      let s := debounceStep isTouching v
      let r := debounceRun s.1 vs
      (r.1, s.2 :: r.2)

/-- While the latch is set, above-threshold ticks fire nothing, and the
first at-or-below-threshold tick fires exactly one stop. -/
lemma debounceRun_latched (vs : List ℤ) (w : ℤ)
    (habove : ∀ v ∈ vs, (15:ℤ) < v) (hw : w ≤ 15) :
    debounceRun true (vs ++ [w])
      = (false, List.replicate vs.length none ++ [some TouchEvent.stop]) := by
  induction vs with
  | nil =>
      simp only [List.nil_append, debounceRun, debounceStep, touchThreshold]
      rw [if_neg (by simp), if_pos (by simp; omega)]
      simp [debounceRun]
  | cons v vs ih =>
      have hv : (15:ℤ) < v := habove v (List.mem_cons_self v vs)
      have hrest : ∀ u ∈ vs, (15:ℤ) < u := fun u hu => habove u (List.mem_cons_of_mem v hu)
      simp only [List.cons_append, debounceRun, debounceStep, touchThreshold]
      rw [if_neg (by simp), if_neg (by simp [hv])]
      simp [ih hrest, List.replicate_succ]

/-- C4: for a maximal excursion above the threshold 15 — a nonempty run of
ticks on which the deviation value stays above 15, followed by the first
tick at or below 15 — the debouncer started with the latch clear fires
exactly one start event, at the first tick of the run, and exactly one stop
event, at the first subsequent at-or-below-threshold tick; the above-threshold
ticks while the latch is already set fire nothing. -/
theorem touch_debounce_single_edge (vs : List ℤ) (w : ℤ) (hvs : vs ≠ [])
    (habove : ∀ v ∈ vs, (15:ℤ) < v) (hw : w ≤ 15) :
    (debounceRun false (vs ++ [w])).2
      = some TouchEvent.start ::
          (List.replicate (vs.length - 1) none ++ [some TouchEvent.stop]) := by
  obtain ⟨v, vs', rfl⟩ := List.exists_cons_of_ne_nil hvs
  have hv : (15:ℤ) < v := habove v (List.mem_cons_self v vs')
  have hrest : ∀ u ∈ vs', (15:ℤ) < u := fun u hu => habove u (List.mem_cons_of_mem v hu)
  simp only [List.cons_append, debounceRun, debounceStep, touchThreshold]
  rw [if_pos (by simp; omega)]
  simp [debounceRun_latched vs' w hrest hw]

/-- Concrete instance of `touch_debounce_single_edge`: the deviation value
40 repeated for 10 consecutive ticks, then a tick at 0, produces exactly
one start and one stop. -/
theorem touch_debounce_witness :
    (debounceRun false (List.replicate 10 (40:ℤ) ++ [0])).2
      = some TouchEvent.start ::
          (List.replicate ((List.replicate 10 (40:ℤ)).length - 1) none
            ++ [some TouchEvent.stop]) :=
  touch_debounce_single_edge (List.replicate 10 40) 0 (by simp)
    (by intro v hv; rw [List.eq_of_mem_replicate hv]; norm_num) (by norm_num)

/-! ## Bio-Synth Audio Engine

Embeds `BioSynth.update(raw, threshold)`.  The audio-node mutations
(`setTargetAtTime(target, now, tau)`) are modelled as a record of the
current ramp targets; the gate-closed branch sets only the amplitude
target (to 0, with time constant 0.1) and returns, leaving every other
target untouched.
-/

/-- The per-instance tunables of the engine (`this.params`). -/
structure SynthParams where
  fmin : ℚ
  fmax : ℚ
  ampMax : ℚ
  glide : ℚ
  vibratoSpeed : ℚ
  vibratoDepth : ℚ
  brightness : ℚ
deriving Repr, DecidableEq

/-- The constructor defaults of `BioSynth`:
`fmin 196, fmax 1000, ampMax 1.5, glide 0.2, vibratoSpeed 6.0,
vibratoDepth 4.0, brightness 2000`. -/
def defaultParams : SynthParams :=
  { fmin := 196, fmax := 1000, ampMax := 3/2, glide := 1/5,
    vibratoSpeed := 6, vibratoDepth := 4, brightness := 2000 }

/-- The ramp targets last scheduled on the audio graph: the master gain
target and its time constant, the oscillator frequency target, the filter
cutoff target, and the vibrato (LFO gain) depth target. -/
structure SynthTargets where
  amp : ℚ
  ampTau : ℚ
  freq : ℚ
  cutoff : ℚ
  vibrato : ℚ
deriving Repr, DecidableEq

/-- The body of `BioSynth.update(raw, threshold)` on an initialized engine with params
`p` and master-volume multiplier `mv`. -/
def BioSynth.update (p : SynthParams) (mv : ℚ) (raw threshold : ℚ)
    (s : SynthTargets) : SynthTargets :=
  if raw ≤ threshold then
    { s with amp := 0, ampTau := 1/10 }
  else
    let maxExpected : ℚ := 120
    let inputRange := max 1 (maxExpected - threshold)
    let normalizedInput := min 1 (max 0 ((raw - threshold) / inputRange))
    let minVol : ℚ := 1/5
    let maxVol := p.ampMax
    let targetAmp := minVol + normalizedInput * (maxVol - minVol)
    let targetFreq := p.fmin + normalizedInput * (p.fmax - p.fmin)
    let targetBrightness := 800 + normalizedInput * 3000
    { amp := targetAmp * mv, ampTau := p.glide,
      freq := targetFreq, cutoff := targetBrightness,
      vibrato := p.vibratoDepth + normalizedInput * 2 }

/-- C5: when `raw ≤ threshold` the update sets only the amplitude target
(to 0, with the 0.1 s time constant) and leaves every other target
unchanged; when `raw > threshold` the amplitude target is
`(minVol + normalized*(ampMax - minVol)) * masterVolume` with
`normalized = clamp((raw - threshold)/max(1, 120 - threshold), 0, 1)` and
`minVol = 0.2`; in particular `update(10, 50)` drives the amplitude toward
0 and `update(90, 50)` on the default params drives it toward a value
strictly between `minVol*masterVolume` and `ampMax*masterVolume`. -/
theorem bioSynth_update_gate (p : SynthParams) (mv raw threshold : ℚ)
    (s : SynthTargets) (hmv : 0 < mv) :
    (raw ≤ threshold →
      BioSynth.update p mv raw threshold s = { s with amp := 0, ampTau := 1/10 }) ∧
    (threshold < raw →
      (BioSynth.update p mv raw threshold s).amp
        = (1/5 + min 1 (max 0 ((raw - threshold) / max 1 (120 - threshold)))
            * (p.ampMax - 1/5)) * mv) ∧
    (BioSynth.update p mv 10 50 s).amp = 0 ∧
    (1/5 * mv < (BioSynth.update defaultParams mv 90 50 s).amp ∧
      (BioSynth.update defaultParams mv 90 50 s).amp < 3/2 * mv) := by
  refine ⟨fun hle => ?_, fun hgt => ?_, ?_, ?_, ?_⟩
  · rw [BioSynth.update, if_pos hle]
  · rw [BioSynth.update, if_neg (not_le.mpr hgt)]
  · rw [BioSynth.update, if_pos (by norm_num)]
  · have hamp : (BioSynth.update defaultParams mv 90 50 s).amp = (33/35) * mv := by
      rw [BioSynth.update, if_neg (by norm_num)]
      norm_num [defaultParams]
    rw [hamp]
    exact mul_lt_mul_of_pos_right (by norm_num) hmv
  · have hamp : (BioSynth.update defaultParams mv 90 50 s).amp = (33/35) * mv := by
      rw [BioSynth.update, if_neg (by norm_num)]
      norm_num [defaultParams]
    rw [hamp]
    exact mul_lt_mul_of_pos_right (by norm_num) hmv

/-- Concrete instance of `bioSynth_update_gate` at master volume 3/2 (the
DeviceMonitor default) and an arbitrary initial target record. -/
theorem bioSynth_update_gate_witness :
    (BioSynth.update defaultParams (3/2) 10 50 ⟨1, 1, 440, 2000, 4⟩).amp = 0 ∧
    (1/5 * (3/2) < (BioSynth.update defaultParams (3/2) 90 50 ⟨1, 1, 440, 2000, 4⟩).amp ∧
      (BioSynth.update defaultParams (3/2) 90 50 ⟨1, 1, 440, 2000, 4⟩).amp
        < 3/2 * (3/2)) := by
  have h := bioSynth_update_gate defaultParams (3/2) 90 50 ⟨1, 1, 440, 2000, 4⟩
    (by norm_num)
  exact ⟨h.2.2.1, h.2.2.2⟩

/-! ## Conversational Interaction Controller

Embeds the exclusion logic of `processInteraction`:

    const processInteraction = async (text, type, overrideValue?) => {
      if (isProcessing && type !== 'SYSTEM') return;
      setIsProcessing(true);
      if (type === 'USER') { ... setMessages(prev => [...prev, newUserMsg]); }
      try { ... responseText = await ...; setMessages(prev => [...prev, newModelMsg]); ... }
      finally { setIsProcessing(false); }
    };

The synchronous prefix (gate check, `setIsProcessing(true)`, user-message
append, launch of the generation call) is one atomic `requestInteraction`
step; the resolution of the awaited call (model-message append,
`setIsProcessing(false)`) is one atomic `resolveInteraction` step.
`inFlight` is a ghost counter of outstanding generation requests.
-/

/-- Conversation roles (`ChatMessage.role`). -/
inductive Role where
  | user
  | model
deriving DecidableEq, Repr

/-- One entry of the conversation history. -/
structure ChatMessage where
  role : Role
  text : String
deriving DecidableEq, Repr

/-- The three interaction trigger kinds of `processInteraction`. -/
inductive InteractionType where
  | USER
  | SYSTEM
  | TOUCH
deriving DecidableEq, Repr

/-- Controller state: the `isProcessing` flag, the conversation history,
and the ghost count of outstanding generation requests. -/
structure ControllerState where
  isProcessing : Bool
  inFlight : ℕ
  messages : List ChatMessage
deriving DecidableEq, Repr

/-- The synchronous prefix of `processInteraction`: a new interaction
request.  While `isProcessing` is set, non-SYSTEM requests return
immediately (rejected, nothing queued); an accepted request sets the flag,
launches one generation call, and for USER requests appends the user's
message to the history before the call. -/
def requestInteraction (st : ControllerState) (ty : InteractionType)
    (text : String) : ControllerState :=
  if st.isProcessing = true ∧ ty ≠ InteractionType.SYSTEM then st
  else
    { isProcessing := true,
      inFlight := st.inFlight + 1,
      messages :=
        if ty = InteractionType.USER then
          st.messages ++ [{ role := Role.user, text := text }]
        else st.messages }

/-- Resolution of the in-flight generation call: the response is appended
to the history as a model turn and the `finally` block clears the flag. -/
def resolveInteraction (st : ControllerState) (response : String) :
    ControllerState :=
  { isProcessing := false,
    inFlight := st.inFlight - 1,
    messages := st.messages ++ [{ role := Role.model, text := response }] }

/-- An atomic controller event: a new request, or the resolution of the
in-flight call. -/
inductive ControllerAction where
  | req : InteractionType → String → ControllerAction
  | resolve : String → ControllerAction
deriving DecidableEq, Repr

/-- One controller step. -/
def controllerStep (st : ControllerState) : ControllerAction → ControllerState
  | ControllerAction.req ty text => requestInteraction st ty text
  | ControllerAction.resolve response => resolveInteraction st response

/-- A controller run over a list of events. -/
def controllerRun (st : ControllerState) (acts : List ControllerAction) :
    ControllerState :=
  acts.foldl controllerStep st

/-- Recognizes a SYSTEM request event (SYSTEM bypasses the gate). -/
def isSystemReq : ControllerAction → Bool
  | ControllerAction.req InteractionType.SYSTEM _ => true
  | _ => false

/-- The at-most-one-in-flight invariant: no more than one outstanding
generation request, and none while the flag is clear. -/
def ControllerInv (st : ControllerState) : Prop :=
  st.inFlight ≤ 1 ∧ (st.isProcessing = false → st.inFlight = 0)

/-- One non-SYSTEM controller step preserves the invariant. -/
lemma controllerStep_preserves (st : ControllerState) (a : ControllerAction)
    (ha : isSystemReq a = false) (hinv : ControllerInv st) :
    ControllerInv (controllerStep st a) := by
  obtain ⟨h1, h2⟩ := hinv
  cases a with
  | req ty text =>
      cases ty with
      | SYSTEM => simp [isSystemReq] at ha
      | USER =>
          rw [controllerStep, requestInteraction]
          by_cases hp : st.isProcessing = true
          · rw [if_pos (by simp [hp])]; exact ⟨h1, h2⟩
          · rw [if_neg (by simp [hp])]
            have : st.inFlight = 0 := h2 (by simpa using hp)
            exact ⟨by simp [this], by simp⟩
      | TOUCH =>
          rw [controllerStep, requestInteraction]
          by_cases hp : st.isProcessing = true
          · rw [if_pos (by simp [hp])]; exact ⟨h1, h2⟩
          · rw [if_neg (by simp [hp])]
            have : st.inFlight = 0 := h2 (by simpa using hp)
            exact ⟨by simp [this], by simp⟩
  | resolve response =>
      exact ⟨by simp [controllerStep, resolveInteraction]; omega,
        fun _ => by simp [controllerStep, resolveInteraction]; omega⟩

/-- A run of non-SYSTEM controller events preserves the invariant. -/
lemma controllerRun_inv (acts : List ControllerAction) (st : ControllerState)
    (hacts : acts.all (fun a => !isSystemReq a) = true)
    (hinv : ControllerInv st) : ControllerInv (controllerRun st acts) := by
  induction acts generalizing st with
  | nil => exact hinv
  | cons a as ih =>
      rw [List.all_cons, Bool.and_eq_true] at hacts
      exact ih (controllerStep st a) hacts.2
        (controllerStep_preserves st a (by simpa using hacts.1) hinv)

/-- C6: while a request is in flight (`isProcessing` set), every new USER
or TOUCH request is rejected unchanged — nothing is queued and the history
is untouched; along any run of USER/TOUCH requests and resolutions from an
invariant state, at most one generation request is ever outstanding; and
resolving the in-flight request still appends its response to the history
as a model turn. -/
theorem interaction_exclusion (st : ControllerState) (ty : InteractionType)
    (text : String) (acts : List ControllerAction)
    (hproc : st.isProcessing = true) (hty : ty ≠ InteractionType.SYSTEM)
    (hacts : acts.all (fun a => !isSystemReq a) = true)
    (hinv : ControllerInv st) :
    requestInteraction st ty text = st ∧
    (controllerRun st acts).inFlight ≤ 1 ∧
    ∀ response, (resolveInteraction st response).messages
      = st.messages ++ [{ role := Role.model, text := response }] := by
  exact ⟨by rw [requestInteraction, if_pos ⟨hproc, hty⟩],
    (controllerRun_inv acts st hacts hinv).1, fun _ => rfl⟩

/-- Concrete instance of `interaction_exclusion`: with one request in
flight, a second user message is rejected unchanged, a run of a rejected
request followed by the resolution keeps at most one request outstanding,
and the resolution appends the response. -/
theorem interaction_exclusion_witness :
    requestInteraction ⟨true, 1, [⟨Role.user, "hi"⟩]⟩ InteractionType.USER "again"
        = ⟨true, 1, [⟨Role.user, "hi"⟩]⟩ ∧
    (controllerRun ⟨true, 1, [⟨Role.user, "hi"⟩]⟩
        [ControllerAction.req InteractionType.USER "again",
         ControllerAction.resolve "resp"]).inFlight ≤ 1 ∧
    ∀ response, (resolveInteraction ⟨true, 1, [⟨Role.user, "hi"⟩]⟩ response).messages
      = [⟨Role.user, "hi"⟩] ++ [{ role := Role.model, text := response }] :=
  interaction_exclusion ⟨true, 1, [⟨Role.user, "hi"⟩]⟩ InteractionType.USER "again"
    [ControllerAction.req InteractionType.USER "again",
     ControllerAction.resolve "resp"]
    rfl (by decide) (by decide) ⟨by decide, by decide⟩

/-! ## Analysis windows

Embeds `VertexAIService.addHealthEventToWindow`:

    addHealthEventToWindow(event) {
      this.healthDataWindow.push(event);
      if (this.healthDataWindow.length > 20) {
        this.healthDataWindow.shift();
      }
    }

and the DeviceMonitor chart update:

    setChartData(prev => {
       const newData = prev.length > 50 ? prev.slice(1) : prev;
       return [...newData, { time: timeRef.current++, val: hardwareBufferRef.current.raw }];
    });
-/

/-- The window update `addHealthEventToWindow`: append at the tail, then evict the head when
the length exceeds 20. -/
def addHealthEventToWindow {α : Type} (w : List α) (e : α) : List α :=
  let w' := w ++ [e]
  if w'.length > 20 then w'.tail else w'

/-- Closed form of a fold of `addHealthEventToWindow` from a window of at
most 20 events: the result is the suffix of all events past the first
`total - 20`. -/
lemma addHealthEventToWindow_foldl {α : Type} (es : List α) (w : List α)
    (hw : w.length ≤ 20) :
    es.foldl addHealthEventToWindow w
      = (w ++ es).drop (w.length + es.length - 20) := by
  induction es generalizing w with
  | nil => simp [Nat.sub_eq_zero_of_le hw]
  | cons e es ih =>
      rw [List.foldl_cons]
      by_cases h : w.length < 20
      · have hstep : addHealthEventToWindow w e = w ++ [e] := by
          rw [addHealthEventToWindow]
          simp only [List.length_append, List.length_singleton]
          rw [if_neg (by omega)]
        rw [hstep, ih (w ++ [e]) (by simp; omega)]
        simp only [List.length_append, List.length_singleton, List.length_cons,
          List.length_nil, List.append_assoc, List.singleton_append]
        congr 1
        omega
      · have hw20 : w.length = 20 := by omega
        have hne : w ++ [e] ≠ [] := by simp
        have hstep : addHealthEventToWindow w e = (w ++ [e]).tail := by
          rw [addHealthEventToWindow]
          simp only [List.length_append, List.length_singleton]
          rw [if_pos (by omega)]
        have htail : (w ++ [e]).tail = w.tail ++ [e] := by
          cases w with
          | nil => simp at hw20
          | cons x xs => simp
        rw [hstep, htail, ih (w.tail ++ [e]) (by simp [List.length_tail]; omega)]
        have hwpos : w ≠ [] := by intro h0; rw [h0] at hw20; simp at hw20
        obtain ⟨x, xs, rfl⟩ := List.exists_cons_of_ne_nil hwpos
        simp only [List.length_append, List.length_tail, List.length_cons,
          List.length_singleton, List.length_nil, List.tail_cons, List.append_assoc,
          List.singleton_append, List.cons_append]
        simp at hw20
        have h1 : xs.length + (0 + 1) + es.length - 20 = es.length := by omega
        have h2 : xs.length + 1 + (es.length + 1) - 20 = es.length + 1 := by omega
        rw [h1, h2, List.drop_succ_cons]
        simp

/-- C7: the health analysis window never exceeds 20 events — events are
appended at the tail, the head is evicted exactly when the length would
exceed 20 — and pushing 25 events into an empty window leaves exactly the
most recent 20 in arrival order. -/
theorem health_window_bounded {α : Type} (w : List α) (e : α) (es : List α)
    (hw : w.length ≤ 20) (hes : es.length = 25) :
    (addHealthEventToWindow w e).length ≤ 20 ∧
    (w.length < 20 → addHealthEventToWindow w e = w ++ [e]) ∧
    (w.length = 20 → addHealthEventToWindow w e = w.tail ++ [e]) ∧
    es.foldl addHealthEventToWindow [] = es.drop 5 := by
  refine ⟨?_, fun hlt => ?_, fun heq => ?_, ?_⟩
  · rw [addHealthEventToWindow]
    simp only [List.length_append, List.length_singleton]
    by_cases h : w.length + 1 > 20
    · rw [if_pos h]; simp [List.length_tail]; omega
    · rw [if_neg h]; simp; omega
  · rw [addHealthEventToWindow]
    simp only [List.length_append, List.length_singleton]
    rw [if_neg (by omega)]
  · obtain ⟨x, xs, rfl⟩ := List.exists_cons_of_ne_nil
      (by intro h0; rw [h0] at heq; simp at heq : w ≠ [])
    rw [addHealthEventToWindow]
    simp only [List.length_append, List.length_singleton]
    rw [if_pos (by omega)]
    simp
  · rw [addHealthEventToWindow_foldl es [] (by simp)]
    simp [hes]

/-- Concrete instance of `health_window_bounded`: a full window of the
numbers 0–19, plus the events 0–24 pushed into an empty window. -/
theorem health_window_bounded_witness :
    (addHealthEventToWindow (List.range 20) 20).length ≤ 20 ∧
    ((List.range 20).length < 20 →
      addHealthEventToWindow (List.range 20) 20 = List.range 20 ++ [20]) ∧
    ((List.range 20).length = 20 →
      addHealthEventToWindow (List.range 20) 20 = (List.range 20).tail ++ [20]) ∧
    (List.range 25).foldl addHealthEventToWindow [] = (List.range 25).drop 5 :=
  health_window_bounded (List.range 20) 20 (List.range 25)
    (by simp) (by simp)

/-- One chart update of the sampling tick: evict the head only when the
length before appending exceeds 50, then append the new point
`(time, raw)` at the tail. -/
def chartStep (prev : List (ℕ × ℚ)) (pt : ℕ × ℚ) : List (ℕ × ℚ) :=
  (if prev.length > 50 then prev.tail else prev) ++ [pt]

/-- The chart's initial state `INITIAL_DATA`:
`Array(50).fill(0).map((_, i) => ({ time: i, val: 0 }))`. -/
def initialChartData : List (ℕ × ℚ) :=
  (List.range 50).map (fun i => (i, 0))

/-- C9 counterexample: one sampling tick from the chart's own initial
state (50 points) leaves 51 points in the window, so the window is not
capped at 50 elements. -/
theorem chart_cap_counterexample :
    ¬ (chartStep initialChartData (50, 7)).length ≤ 50 := by
  decide

/-- C9 (amended): the chart window holds at most 51 elements — eviction of
the oldest point happens only when the length before appending exceeds 50,
appending keeps the order of the surviving points. -/
theorem chart_window_bounded (w : List (ℕ × ℚ)) (pt : ℕ × ℚ)
    (hw : w.length ≤ 51) :
    (chartStep w pt).length ≤ 51 ∧
    (50 < w.length → chartStep w pt = w.tail ++ [pt]) ∧
    (w.length ≤ 50 → chartStep w pt = w ++ [pt]) := by
  refine ⟨?_, fun hgt => ?_, fun hle => ?_⟩
  · rw [chartStep]
    by_cases h : w.length > 50
    · rw [if_pos h]; simp [List.length_tail]; omega
    · rw [if_neg h]; simp; omega
  · rw [chartStep, if_pos hgt]
  · rw [chartStep, if_neg (by omega)]

/-- Concrete instance of `chart_window_bounded` at the initial chart
state. -/
theorem chart_window_bounded_witness :
    (chartStep initialChartData (50, 7)).length ≤ 51 ∧
    (50 < initialChartData.length →
      chartStep initialChartData (50, 7) = initialChartData.tail ++ [(50, 7)]) ∧
    (initialChartData.length ≤ 50 →
      chartStep initialChartData (50, 7) = initialChartData ++ [(50, 7)]) :=
  chart_window_bounded initialChartData (50, 7) (by decide)

/-! ## Generation failure handling

Embeds the error paths of `generatePlantResponse` (geminiService).  The
function never throws: a missing key returns an in-band sentinel up front,
and after the retry loop every classified error is turned into a
`"(System: ...)"` string by a cascade of case-insensitive substring checks
on the error message (plus an HTTP status code when one is attached).
The network round trip itself is abstracted as a `GenOutcome`: the text on
success, or the final error message and status after retries. -/

/-- JavaScript's `String.prototype.includes`. -/
def jsIncludes (s pat : String) : Bool := (s.splitOn pat).length != 1

/-- The status-code sub-branch of the final error handler: the JS code
reads `status = lastError?.status || 'unknown'` and checks it against
401/403, then 429, before the generic template. -/
def geminiStatusMessage (errorMessage : String) (status : Option ℕ) : String :=
  match status with
  | some 401 =>
      "(System: API Key is invalid or expired. Please get a new API key from https://aistudio.google.com/apikey)"
  | some 403 =>
      "(System: API Key is invalid or expired. Please get a new API key from https://aistudio.google.com/apikey)"
  | some 429 =>
      "(System: Rate limit exceeded. Please wait a moment and try again.)"
  | some n =>
      "(System: API Error (" ++ toString n ++ ") - " ++ errorMessage.take 100 ++
        ". Please check your API key at https://aistudio.google.com/apikey)"
  | none =>
      "(System: API Error (unknown) - " ++ errorMessage.take 100 ++
        ". Please check your API key at https://aistudio.google.com/apikey)"

/-- The final error handler of `generatePlantResponse`: classifies the
error message (lower-cased, as `errorStr`) and optional HTTP status into
an in-band synthetic system message. -/
def geminiErrorMessage (errorMessage : String) (status : Option ℕ) : String :=
  let errorStr := errorMessage.toLower
  if jsIncludes errorStr "api key" || jsIncludes errorStr "invalid" ||
      jsIncludes errorStr "401" || jsIncludes errorStr "403" ||
      jsIncludes errorStr "unauthorized" then
    "(System: Invalid or missing API Key. Please click the Lock icon in the top-right to enter your Google Gemini API Key.)"
  else if jsIncludes errorStr "quota" || jsIncludes errorStr "rate limit" ||
      jsIncludes errorStr "429" || jsIncludes errorStr "resource exhausted" then
    "(System: API quota exceeded. Please try again later or check your Gemini API quota.)"
  else if jsIncludes errorStr "not found" || jsIncludes errorStr "404" ||
      jsIncludes errorStr "model" then
    "(System: Model error - " ++ errorMessage.take 80 ++
      ". Please check your API key and model access.)"
  else if jsIncludes errorStr "fetch" || jsIncludes errorStr "http" ||
      status.isSome then
    geminiStatusMessage errorMessage status
  else if (jsIncludes errorStr "network" || jsIncludes errorStr "fetch failed" ||
      jsIncludes errorStr "timeout") && !jsIncludes errorStr "api" &&
      !jsIncludes errorStr "model" && !jsIncludes errorStr "key" then
    "(System: Network error. Please check your internet connection and try again.)"
  else
    "(System: " ++ errorMessage.take 120 ++ ")"

/-- Outcome of the external generation call, after the internal retry and
model-fallback loop: generated text, or the final error. -/
inductive GenOutcome where
  | ok (text : String)
  | failure (errorMessage : String) (status : Option ℕ)
deriving DecidableEq, Repr

/-- The outcome of `generatePlantResponse`: with no API key available it returns the
missing-key sentinel before calling out; otherwise it returns the
generated text, or the classified in-band error message — it never
throws. -/
def generatePlantResponse (apiKey : Option String) (outcome : GenOutcome) :
    String :=
  match apiKey with
  | none =>
      "(System: API Key missing. Please click the Lock icon in the top-right to enter your Google Gemini API Key.)"
  | some _ =>
      match outcome with
      | GenOutcome.ok t => t
      | GenOutcome.failure msg st => geminiErrorMessage msg st

/-- Appending to a string that starts with `"(System:"` keeps the
prefix. -/
lemma sysPrefix_append (a b : String) (h : ∃ r, a = "(System:" ++ r) :
    ∃ r, a ++ b = "(System:" ++ r := by
  obtain ⟨r, hr⟩ := h
  exact ⟨r ++ b, by rw [hr, String.append_assoc]⟩

/-- Every branch of the status sub-handler is in-band. -/
lemma geminiStatusMessage_system (msg : String) (st : Option ℕ) :
    ∃ rest, geminiStatusMessage msg st = "(System:" ++ rest := by
  unfold geminiStatusMessage
  split
  · exact ⟨" API Key is invalid or expired. Please get a new API key from https://aistudio.google.com/apikey)",
      rfl⟩
  · exact ⟨" API Key is invalid or expired. Please get a new API key from https://aistudio.google.com/apikey)",
      rfl⟩
  · exact ⟨" Rate limit exceeded. Please wait a moment and try again.)", rfl⟩
  · exact sysPrefix_append _ _ (sysPrefix_append _ _
      (sysPrefix_append _ _ (sysPrefix_append _ _ ⟨" API Error (", rfl⟩)))
  · exact sysPrefix_append _ _ (sysPrefix_append _ _ ⟨" API Error (unknown) - ", rfl⟩)

/-- Every classified error message is in-band: it starts with
`"(System:"`. -/
lemma geminiErrorMessage_system (msg : String) (st : Option ℕ) :
    ∃ rest, geminiErrorMessage msg st = "(System:" ++ rest := by
  simp only [geminiErrorMessage]
  split
  · exact ⟨" Invalid or missing API Key. Please click the Lock icon in the top-right to enter your Google Gemini API Key.)",
      rfl⟩
  split
  · exact ⟨" API quota exceeded. Please try again later or check your Gemini API quota.)",
      rfl⟩
  split
  · exact sysPrefix_append _ _ (sysPrefix_append _ _ ⟨" Model error - ", rfl⟩)
  split
  · exact geminiStatusMessage_system msg st
  split
  · exact ⟨" Network error. Please check your internet connection and try again.)",
      rfl⟩
  · exact sysPrefix_append _ _ (sysPrefix_append _ _ ⟨" ", rfl⟩)

/-- C8: every failing generation call — missing key, or any classified
error with any status — returns an in-band `"(System: ...)"` text rather
than throwing; resolving the interaction appends that text to the history
as a model turn, right after the user's own message, which was appended
before the call and is never removed. -/
theorem generation_failure_inband (key msg : String) (st : Option ℕ)
    (stc : ControllerState) (userText resp : String)
    (hproc : stc.isProcessing = false) :
    (∃ rest, generatePlantResponse none (GenOutcome.failure msg st)
        = "(System:" ++ rest) ∧
    (∃ rest, generatePlantResponse (some key) (GenOutcome.failure msg st)
        = "(System:" ++ rest) ∧
    (resolveInteraction (requestInteraction stc InteractionType.USER userText)
        resp).messages
      = stc.messages ++ [{ role := Role.user, text := userText },
          { role := Role.model, text := resp }] := by
  refine ⟨⟨" API Key missing. Please click the Lock icon in the top-right to enter your Google Gemini API Key.)",
    rfl⟩, geminiErrorMessage_system msg st, ?_⟩
  rw [requestInteraction, if_neg (by simp [hproc]), resolveInteraction]
  simp

/-- Concrete instance of `generation_failure_inband`: a quota error
resolving against an idle controller with one prior message. -/
theorem generation_failure_inband_witness :
    (∃ rest, generatePlantResponse none
        (GenOutcome.failure "429 quota exceeded" (some 429))
        = "(System:" ++ rest) ∧
    (∃ rest, generatePlantResponse (some "k")
        (GenOutcome.failure "429 quota exceeded" (some 429))
        = "(System:" ++ rest) ∧
    (resolveInteraction
        (requestInteraction ⟨false, 0, [⟨Role.model, "hello"⟩]⟩
          InteractionType.USER "hi")
        "(System: API quota exceeded. Please try again later or check your Gemini API quota.)").messages
      = [⟨Role.model, "hello"⟩] ++ [{ role := Role.user, text := "hi" },
          { role := Role.model,
            text := "(System: API quota exceeded. Please try again later or check your Gemini API quota.)" }] :=
  generation_failure_inband "k" "429 quota exceeded" (some 429)
    ⟨false, 0, [⟨Role.model, "hello"⟩]⟩ "hi"
    "(System: API quota exceeded. Please try again later or check your Gemini API quota.)"
    rfl

/-! ## Plant-health simulator: touch-event counter

Embeds the `touchEvents` updates of `PlantHealthSimulator.generateReading`:

    if (capacitanceValue !== undefined) {
      if (capacitanceValue > 20) {
        this.state.touchEvents = Math.min(this.state.touchEvents + 1, 10);
      }
    } else {
      if (Math.random() > 0.95) {
        this.state.touchEvents = Math.min(this.state.touchEvents + 1, 10);
      }
    }
    if (Math.random() > 0.7) {
      this.state.touchEvents = Math.max(0, this.state.touchEvents - 1);
    }

The two `Math.random()` draws are modelled as the booleans `simTouch`
(a simulated touch occurred) and `decay` (the decay step fired). -/

/-- The touch-event counter update of one `generateReading` call. -/
def touchEventsStep (prev : ℤ) (capacitance : Option ℚ) (simTouch decay : Bool) : ℤ :=
  let t :=
    match capacitance with
    | some c => if c > 20 then min (prev + 1) 10 else prev
    | none => if simTouch then min (prev + 1) 10 else prev
  if decay then max 0 (t - 1) else t

/-- C10: starting from a counter value in `[0, 10]`, one reading leaves
`touch_events_last_min` in `[0, 10]`: it grows by at most 1 (capped at
10) and shrinks by at most 1 (floored at 0). -/
theorem touch_events_bounded (prev : ℤ) (capacitance : Option ℚ)
    (simTouch decay : Bool) (h0 : 0 ≤ prev) (h10 : prev ≤ 10) :
    0 ≤ touchEventsStep prev capacitance simTouch decay ∧
    touchEventsStep prev capacitance simTouch decay ≤ 10 ∧
    touchEventsStep prev capacitance simTouch decay ≤ prev + 1 ∧
    prev - 1 ≤ touchEventsStep prev capacitance simTouch decay := by
  unfold touchEventsStep
  rcases capacitance with _ | c <;>
    simp only [] <;>
    split <;> split <;> refine ⟨?_, ?_, ?_, ?_⟩ <;> omega

/-- Concrete instance of `touch_events_bounded`: a saturated counter with
a live capacitance reading above 20 and no decay stays at 10. -/
theorem touch_events_bounded_witness :
    0 ≤ touchEventsStep 10 (some 25) false false ∧
    touchEventsStep 10 (some 25) false false ≤ 10 ∧
    touchEventsStep 10 (some 25) false false ≤ 10 + 1 ∧
    (10:ℤ) - 1 ≤ touchEventsStep 10 (some 25) false false :=
  touch_events_bounded 10 (some 25) false false (by norm_num) (by norm_num)

end PlantConnect
